import Mathlib

/-!
Shallow embedding of `.github/integration-test.py`: a CI harness that drives a
container runtime (docker or podman) to build an image, start a systemd
container, wait for readiness, and run an integration-test sequence inside it.

The embedding is explicit state passing.  The state `St` carries the wall-clock
time in seconds (advanced only by `time.sleep`) and a trace of observable
events: `which` probes of the search path, issued runtime commands, and sleeps.
Python exceptions become `Except PyExc`; `subprocess.CalledProcessError` is the
nonzero-exit failure of a command, `RuntimeError` carries its message, and any
other exception is `otherExc`.  The outside world is an `Env`: which runtime
binaries the search path offers, and the outcome of each issued command as a
function of the command line and the current time.
-/

namespace IntegrationTest

/-- A command line: the argument vector handed to `subprocess`. -/
abbrev Cmd := List String

/-- Python exceptions that the script can raise or observe. -/
inductive PyExc where
  | calledProcessError : PyExc
  | runtimeError : String → PyExc
  | otherExc : String → PyExc
deriving DecidableEq

/-- Outcome the outside world gives to one issued command: captured output on
success, or the exception the `subprocess` call raises. -/
inductive CmdOutcome where
  | ok : String → CmdOutcome
  | fail : PyExc → CmdOutcome
deriving DecidableEq

/-- Observable events of a run: a `shutil.which` probe for a runtime binary, an
issued subprocess command, or a `time.sleep`. -/
inductive Event where
  | probe : String → Event
  | exec : Cmd → Event
  | sleep : Nat → Event
deriving DecidableEq

/-- The outside world: which runtime binaries exist on the search path, the
outcome of each command at each time, and the absolute path that
`os.path.abspath(os.path.join(os.path.dirname(__file__), os.pardir))`
evaluates to on this host. -/
structure Env where
  whichAvail : String → Bool
  runResult : Cmd → Nat → CmdOutcome
  source_path : String

/-- Process state: current time in seconds and the trace of events so far. -/
structure St where
  time : Nat
  trace : List Event
deriving DecidableEq

/-- Append one event to the trace. -/
def recordEvent (s : St) (e : Event) : St :=
  { s with trace := s.trace ++ [e] }

/-- Sequencing of two fallible stateful computations: Python's statement
sequencing, where a raised exception skips everything after it. -/
def seqE {α β : Type} (x : Except PyExc α × St) (f : α → St → Except PyExc β × St) :
    Except PyExc β × St :=
  match x with
  | (Except.ok a, s) => f a s
  | (Except.error e, s) => (Except.error e, s)

/-- Discard the value of a computation (a Python call used as a statement). -/
def toUnit {α : Type} (x : Except PyExc α × St) : Except PyExc Unit × St :=
  (x.1.map fun _ => (), x.2)

/-- `container_runtime()`: try `which("docker")` then `which("podman")`, return
the first binary found, else raise
`RuntimeError("No container runtime found, tried: docker podman")`. -/
def container_runtime (env : Env) (s : St) : Except PyExc String × St :=
  let s1 := recordEvent s (Event.probe "docker")
  if env.whichAvail "docker" then (Except.ok "docker", s1)
  else
    let s2 := recordEvent s1 (Event.probe "podman")
    if env.whichAvail "podman" then (Except.ok "podman", s2)
    else (Except.error (PyExc.runtimeError "No container runtime found, tried: docker podman"), s2)

/-- Issue one subprocess command: record the event and consult the world for
its outcome at the current time. -/
def execCmd (env : Env) (c : Cmd) (s : St) : Except PyExc String × St :=
  let s1 := recordEvent s (Event.exec c)
  match env.runResult c s.time with
  | CmdOutcome.ok out => (Except.ok out, s1)
  | CmdOutcome.fail e => (Except.error e, s1)

/-- `container_check_output(args)`: prepend the resolved runtime to the
argument list and run it with `subprocess.check_output`. -/
def container_check_output (env : Env) (args : Cmd) (s : St) : Except PyExc String × St :=
  seqE (container_runtime env s) fun rt s1 => execCmd env (rt :: args) s1

/-- `container_run(args, check=...)`: prepend the resolved runtime and run the
command with `subprocess.run`; a nonzero exit raises `CalledProcessError` only
when `check` is true, any other exception always propagates. -/
def container_run (env : Env) (check : Bool) (args : Cmd) (s : St) : Except PyExc String × St :=
  seqE (container_runtime env s) fun rt s1 =>
    match execCmd env (rt :: args) s1 with
    | (Except.error PyExc.calledProcessError, s2) =>
        if check then (Except.error PyExc.calledProcessError, s2) else (Except.ok "", s2)
    | r => r

/-- `build_systemd_image(image_name, source_path, build_args)`: build command
with `-t=<image_name>`, the context path, and one `--build-arg=<ba>` flag per
element of `build_args`, in order. -/
def build_systemd_image (env : Env) (image_name source_path : String)
    (build_args : List String) (s : St) : Except PyExc Unit × St :=
  let cmd := ["build", "-t=" ++ image_name, source_path]
  let cmd2 := if build_args.isEmpty then cmd
    else cmd ++ build_args.map (fun ba => "--build-arg=" ++ ba)
  toUnit (container_check_output env cmd2 s)

/-- `run_systemd_image(image_name, container_name, bootstrap_pip_spec)`: start
a detached privileged container limited to 900 MiB, injecting
`TLJH_BOOTSTRAP_PIP_SPEC` exactly when `bootstrap_pip_spec` is non-empty. -/
def run_systemd_image (env : Env) (image_name container_name bootstrap_pip_spec : String)
    (s : St) : Except PyExc Unit × St :=
  let cmd := ["run", "--privileged", "--detach", "--name=" ++ container_name, "--memory=900m"]
  let cmd2 := if bootstrap_pip_spec = "" then cmd
    else cmd ++ ["-e", "TLJH_BOOTSTRAP_PIP_SPEC=" ++ bootstrap_pip_spec]
  toUnit (container_check_output env (cmd2 ++ [image_name]) s)

/-- `stop_container(container_name)`: inspect the container; a
`CalledProcessError` from inspect means it does not exist and the function
returns; otherwise force-remove it.  Non-`CalledProcessError` exceptions from
the inspect propagate. -/
def stop_container (env : Env) (container_name : String) (s : St) : Except PyExc Unit × St :=
  match container_check_output env ["inspect", container_name] s with
  | (Except.ok _, s1) => toUnit (container_check_output env ["rm", "-f", container_name] s1)
  | (Except.error PyExc.calledProcessError, s1) => (Except.ok (), s1)
  | (Except.error e, s1) => (Except.error e, s1)

/-- `run_container_command(container_name, cmd)`: run `cmd` through a bash
shell inside the container with `check=True`. -/
def run_container_command (env : Env) (container_name c : String) (s : St) :
    Except PyExc Unit × St :=
  toUnit (container_run env true ["exec", "-t", container_name, "/bin/bash", "-c", c] s)

/-- `copy_to_container(container_name, src_path, dest_path)`. -/
def copy_to_container (env : Env) (container_name src_path dest_path : String) (s : St) :
    Except PyExc Unit × St :=
  toUnit (container_check_output env ["cp", src_path, container_name ++ ":" ++ dest_path] s)

/-- One diagnostic read inside the readiness loop: issue the command and
swallow a `CalledProcessError` (the `try`/`except` around the inspect and logs
reads); any other exception propagates. -/
def tryDiagCmd (env : Env) (args : Cmd) (s : St) : Except PyExc Unit × St :=
  match container_check_output env args s with
  | (Except.ok _, s1) => (Except.ok (), s1)
  | (Except.error PyExc.calledProcessError, s1) => (Except.ok (), s1)
  | (Except.error e, s1) => (Except.error e, s1)

/-- The diagnostics block run after a failed liveness attempt: best-effort
inspect, then best-effort logs. -/
def diagStep (env : Env) (name : String) (s : St) : Except PyExc Unit × St :=
  seqE (tryDiagCmd env ["inspect", name] s) fun _ s1 => tryDiagCmd env ["logs", name] s1

/-- Advance time by `n` seconds (`time.sleep(n)`). -/
def doSleep (n : Nat) (s : St) : St :=
  { time := s.time + n, trace := s.trace ++ [Event.sleep n] }

theorem container_runtime_time (env : Env) (s : St) :
    (container_runtime env s).2.time = s.time := by
  unfold container_runtime recordEvent
  split <;> simp_all <;> split <;> simp_all

theorem execCmd_time (env : Env) (c : Cmd) (s : St) :
    (execCmd env c s).2.time = s.time := by
  unfold execCmd recordEvent
  split <;> simp_all

theorem container_check_output_time (env : Env) (args : Cmd) (s : St) :
    (container_check_output env args s).2.time = s.time := by
  unfold container_check_output seqE
  rcases h : container_runtime env s with ⟨r, s1⟩
  have h1 : s1.time = s.time := by
    have := container_runtime_time env s; rw [h] at this; exact this
  cases r with
  | ok rt => simpa [execCmd_time] using h1
  | error e => simpa using h1

theorem tryDiagCmd_time (env : Env) (args : Cmd) (s : St) :
    (tryDiagCmd env args s).2.time = s.time := by
  unfold tryDiagCmd
  rcases h : container_check_output env args s with ⟨r, s1⟩
  have h1 : s1.time = s.time := by
    have := container_check_output_time env args s; rw [h] at this; exact this
  cases r with
  | ok _ => simpa using h1
  | error e => cases e <;> simpa using h1

theorem diagStep_time (env : Env) (name : String) (s : St) :
    (diagStep env name s).2.time = s.time := by
  unfold diagStep seqE
  rcases h : tryDiagCmd env ["inspect", name] s with ⟨r, s1⟩
  have h1 : s1.time = s.time := by
    have := tryDiagCmd_time env ["inspect", name] s; rw [h] at this; exact this
  cases r with
  | ok _ => simpa [tryDiagCmd_time] using h1
  | error e => simpa using h1

/-- The `while True` loop of `check_container_ready(container_name, timeout)`:
attempt the liveness command `exec -t <name> id`; on success return; on
`CalledProcessError` run the diagnostics block, raise
`RuntimeError("Container <name> hasn't started")` once the elapsed time
exceeds `timeout`, else sleep 5 seconds and retry.  Any exception other than
`CalledProcessError` propagates out of the loop. -/
def readyLoop (env : Env) (name : String) (timeout start : Nat) (s : St) :
    Except PyExc Unit × St :=
  match h1 : container_check_output env ["exec", "-t", name, "id"] s with
  | (Except.ok _, s1) => (Except.ok (), s1)
  | (Except.error PyExc.calledProcessError, s1) =>
    (match h2 : diagStep env name s1 with
     | (Except.ok _, s2) =>
        if h3 : s2.time - start > timeout then
          (Except.error (PyExc.runtimeError ("Container " ++ name ++ " hasn't started")), s2)
        else
          readyLoop env name timeout start (doSleep 5 s2)
     | (Except.error e, s2) => (Except.error e, s2))
  | (Except.error e, s1) => (Except.error e, s1)
termination_by start + timeout + 5 - s.time
decreasing_by
  have t1 : s1.time = s.time := by
    have := container_check_output_time env ["exec", "-t", name, "id"] s
    rw [h1] at this
    exact this
  have t2 : s2.time = s1.time := by
    have := diagStep_time env name s1
    rw [h2] at this
    exact this
  simp only [doSleep]
  omega

/-- `check_container_ready(container_name, timeout=60)`: record the start time
and enter the polling loop. -/
def check_container_ready (env : Env) (name : String) (timeout : Nat) (s : St) :
    Except PyExc Unit × St :=
  readyLoop env name timeout s.time s

/-- The pytest invocation of `run_test`: verbose run of the copied test files,
aborting after two failures. -/
def pytestCommand (test_files : List String) : String :=
  "/opt/tljh/hub/bin/python3 -m pytest --verbose --maxfail=2 --color=yes --durations=10 --capture=no "
    ++ String.intercalate " " (test_files.map fun f => "/srv/src/integration-tests/" ++ f)

/-- `run_test(image_name, test_name, bootstrap_pip_spec, test_files,
upgrade_from, installer_args)`: stop any leftover container, start a fresh
one, wait for readiness, copy the bootstrap and integration-test fixtures,
print the container logs, optionally run the remote bootstrap at
`upgrade_from`, run the installer, install the test requirements, freeze the
environment, and run pytest. -/
def run_test (env : Env) (image_name test_name bootstrap_pip_spec : String)
    (test_files : List String) (upgrade_from installer_args : String) (s : St) :
    Except PyExc Unit × St :=
  seqE (stop_container env test_name s) fun _ s =>
  seqE (run_systemd_image env image_name test_name bootstrap_pip_spec s) fun _ s =>
  seqE (check_container_ready env test_name 60 s) fun _ s =>
  seqE (copy_to_container env test_name (env.source_path ++ "/bootstrap/.") "/srv/src" s) fun _ s =>
  seqE (copy_to_container env test_name (env.source_path ++ "/integration-tests/") "/srv/src" s) fun _ s =>
  seqE (toUnit (container_check_output env ["logs", test_name] s)) fun _ s =>
  seqE (if upgrade_from = "" then (Except.ok (), s) else
        run_container_command env test_name
          ("curl -L https://tljh.jupyter.org/bootstrap.py | python3 - --version=" ++ upgrade_from) s)
    fun _ s =>
  seqE (run_container_command env test_name ("python3 /srv/src/bootstrap.py " ++ installer_args) s)
    fun _ s =>
  seqE (run_container_command env test_name
        "/opt/tljh/hub/bin/python3 -m pip install -r /srv/src/integration-tests/requirements.txt" s)
    fun _ s =>
  seqE (run_container_command env test_name "/opt/tljh/hub/bin/python3 -m pip freeze" s)
    fun _ s =>
  run_container_command env test_name (pytestCommand test_files) s

/-! ## Observations over traces -/

/-- Is this event a `which` probe of the search path? -/
def isProbe (e : Event) : Bool :=
  match e with
  | Event.probe _ => true
  | _ => false

/-- Number of search-path probes in a trace. -/
def countProbes (tr : List Event) : Nat := tr.countP isProbe

/-- Is this event the readiness liveness command `<runtime> exec -t <name> id`? -/
def isLiveness (name : String) (e : Event) : Bool :=
  match e with
  | Event.exec c => c.tail == ["exec", "-t", name, "id"]
  | _ => false

/-- Number of liveness attempts recorded in a trace. -/
def countLiveness (name : String) (tr : List Event) : Nat := tr.countP (isLiveness name)

/-- Is this event a container-teardown command (`rm` or `stop` subcommand)? -/
def isTeardown (e : Event) : Bool :=
  match e with
  | Event.exec c => c.tail.head? == some "rm" || c.tail.head? == some "stop"
  | _ => false

/-- Is this event a teardown command other than the force-remove of `name` by
one of the two known runtimes? -/
def isBadTeardown (name : String) (e : Event) : Bool :=
  isTeardown e &&
    !(e == Event.exec ["docker", "rm", "-f", name] || e == Event.exec ["podman", "rm", "-f", name])

theorem cco_trace_cases (env : Env) (args : Cmd) (s : St) :
    (env.whichAvail "docker" = true ∧
      (container_check_output env args s).2.trace
        = s.trace ++ [Event.probe "docker", Event.exec ("docker" :: args)])
    ∨ (env.whichAvail "docker" = false ∧ env.whichAvail "podman" = true ∧
      (container_check_output env args s).2.trace
        = s.trace ++ [Event.probe "docker", Event.probe "podman", Event.exec ("podman" :: args)])
    ∨ (env.whichAvail "docker" = false ∧ env.whichAvail "podman" = false ∧
      (container_check_output env args s).2.trace
        = s.trace ++ [Event.probe "docker", Event.probe "podman"]) := by
  unfold container_check_output container_runtime execCmd recordEvent seqE
  by_cases hd : env.whichAvail "docker"
  · refine Or.inl ⟨hd, ?_⟩
    simp only [hd, if_true]
    split <;> simp
  · by_cases hp : env.whichAvail "podman"
    · refine Or.inr (Or.inl ⟨by simpa using hd, hp, ?_⟩)
      simp only [hd, hp, if_true, if_false, Bool.false_eq_true]
      split <;> simp
    · refine Or.inr (Or.inr ⟨by simpa using hd, by simpa using hp, ?_⟩)
      simp [hd, hp]

theorem container_run_snd (env : Env) (check : Bool) (args : Cmd) (s : St) :
    (container_run env check args s).2 = (container_check_output env args s).2 := by
  unfold container_run container_check_output seqE
  rcases container_runtime env s with ⟨r, s1⟩
  cases r with
  | ok rt =>
    dsimp only
    rcases h : execCmd env (rt :: args) s1 with ⟨r2, s2⟩
    cases r2 with
    | ok _ => simp
    | error e => cases e <;> simp [apply_ite]
  | error e => simp

theorem toUnit_snd {α : Type} (x : Except PyExc α × St) : (toUnit x).2 = x.2 := rfl

theorem cco_countP_le (p : Event → Bool) (hp : ∀ r, p (Event.probe r) = false)
    (env : Env) (args : Cmd) (s : St) :
    ((container_check_output env args s).2.trace).countP p ≤ s.trace.countP p + 1 := by
  rcases cco_trace_cases env args s with ⟨_, h⟩ | ⟨_, _, h⟩ | ⟨_, _, h⟩ <;>
    rw [h] <;> simp [List.countP_append, List.countP_cons, hp] <;> split <;> simp

theorem cco_countP_eq (p : Event → Bool) (hp : ∀ r, p (Event.probe r) = false)
    (env : Env) (args : Cmd) (s : St)
    (hd : p (Event.exec ("docker" :: args)) = false)
    (hpo : p (Event.exec ("podman" :: args)) = false) :
    ((container_check_output env args s).2.trace).countP p = s.trace.countP p := by
  rcases cco_trace_cases env args s with ⟨_, h⟩ | ⟨_, _, h⟩ | ⟨_, _, h⟩ <;>
    rw [h] <;> simp [List.countP_append, List.countP_cons, hp, hd, hpo]

theorem tryDiagCmd_snd (env : Env) (args : Cmd) (s : St) :
    (tryDiagCmd env args s).2 = (container_check_output env args s).2 := by
  unfold tryDiagCmd
  rcases h : container_check_output env args s with ⟨r, s1⟩
  cases r with
  | ok _ => simp
  | error e => cases e <;> simp

theorem diagStep_countP_eq (p : Event → Bool) (hp : ∀ r, p (Event.probe r) = false)
    (env : Env) (name : String) (s : St)
    (h1 : p (Event.exec ["docker", "inspect", name]) = false)
    (h2 : p (Event.exec ["podman", "inspect", name]) = false)
    (h3 : p (Event.exec ["docker", "logs", name]) = false)
    (h4 : p (Event.exec ["podman", "logs", name]) = false) :
    ((diagStep env name s).2.trace).countP p = s.trace.countP p := by
  unfold diagStep seqE
  rcases h : tryDiagCmd env ["inspect", name] s with ⟨r, s1⟩
  have hs : s1 = (container_check_output env ["inspect", name] s).2 := by
    have := tryDiagCmd_snd env ["inspect", name] s
    rw [h] at this
    exact this
  have e1 : s1.trace.countP p = s.trace.countP p := by
    rw [hs]
    exact cco_countP_eq p hp env ["inspect", name] s h1 h2
  cases r with
  | ok _ =>
    have hs := tryDiagCmd_snd env ["logs", name] s1
    simp only [hs]
    rw [cco_countP_eq p hp env ["logs", name] s1 h3 h4]
    exact e1
  | error e => simpa using e1

/-! ## Stepping equations for the readiness loop -/

theorem readyLoop_step_ok (env : Env) (name : String) (timeout start : Nat) (x : St)
    (a : String) (s1 : St)
    (h1 : container_check_output env ["exec", "-t", name, "id"] x = (Except.ok a, s1)) :
    readyLoop env name timeout start x = (Except.ok (), s1) := by
  rw [readyLoop.eq_def]
  split <;> simp_all

theorem readyLoop_step_timeout (env : Env) (name : String) (timeout start : Nat) (x : St)
    (s1 s2 : St)
    (h1 : container_check_output env ["exec", "-t", name, "id"] x
      = (Except.error PyExc.calledProcessError, s1))
    (h2 : diagStep env name s1 = (Except.ok (), s2))
    (h3 : s2.time - start > timeout) :
    readyLoop env name timeout start x
      = (Except.error (PyExc.runtimeError ("Container " ++ name ++ " hasn't started")), s2) := by
  rw [readyLoop.eq_def]
  split <;> simp_all
  split <;> simp_all
  all_goals (intro h4; exfalso; omega)

theorem readyLoop_step_again (env : Env) (name : String) (timeout start : Nat) (x : St)
    (s1 s2 : St)
    (h1 : container_check_output env ["exec", "-t", name, "id"] x
      = (Except.error PyExc.calledProcessError, s1))
    (h2 : diagStep env name s1 = (Except.ok (), s2))
    (h3 : ¬ s2.time - start > timeout) :
    readyLoop env name timeout start x = readyLoop env name timeout start (doSleep 5 s2) := by
  rw [readyLoop.eq_def]
  split <;> simp_all
  split <;> simp_all

theorem readyLoop_step_diagErr (env : Env) (name : String) (timeout start : Nat) (x : St)
    (s1 s2 : St) (e : PyExc)
    (h1 : container_check_output env ["exec", "-t", name, "id"] x
      = (Except.error PyExc.calledProcessError, s1))
    (h2 : diagStep env name s1 = (Except.error e, s2)) :
    readyLoop env name timeout start x = (Except.error e, s2) := by
  rw [readyLoop.eq_def]
  split <;> simp_all
  split <;> simp_all

theorem readyLoop_step_err (env : Env) (name : String) (timeout start : Nat) (x : St)
    (s1 : St) (e : PyExc)
    (h1 : container_check_output env ["exec", "-t", name, "id"] x = (Except.error e, s1))
    (hne : e ≠ PyExc.calledProcessError) :
    readyLoop env name timeout start x = (Except.error e, s1) := by
  rw [readyLoop.eq_def]
  split <;> simp_all

/-- Liveness-attempt bound for the polling loop: every pass issues one attempt
and advances time by 5; the loop exits once `time - start` exceeds
`timeout`. -/
theorem readyLoop_countLiveness_le (env : Env) (name : String) (timeout start : Nat) (s : St) :
    countLiveness name ((readyLoop env name timeout start s).2.trace)
      ≤ countLiveness name s.trace + ((start + timeout + 5 - s.time) / 5 + 1) := by
  have hlive : ∀ (x : St),
      countLiveness name ((container_check_output env ["exec", "-t", name, "id"] x).2.trace)
        ≤ countLiveness name x.trace + 1 := fun x =>
    cco_countP_le (isLiveness name) (fun r => rfl) env ["exec", "-t", name, "id"] x
  have hdiag : ∀ (x : St),
      countLiveness name ((diagStep env name x).2.trace) = countLiveness name x.trace :=
    fun x => diagStep_countP_eq (isLiveness name) (fun r => rfl) env name x rfl rfl rfl rfl
  induction s using readyLoop.induct env name timeout start with
  | case1 x a s1 h1 =>
    rw [readyLoop_step_ok env name timeout start x a s1 h1]
    have := hlive x
    rw [h1] at this
    dsimp only at this ⊢
    omega
  | case2 x s1 h1 b s2 h2 h3 =>
    cases b
    rw [readyLoop_step_timeout env name timeout start x s1 s2 h1 h2 h3]
    have l1 := hlive x
    rw [h1] at l1
    have l2 := hdiag s1
    rw [h2] at l2
    dsimp only at l1 l2 ⊢
    omega
  | case3 x s1 h1 b s2 h2 h3 ih =>
    cases b
    rw [readyLoop_step_again env name timeout start x s1 s2 h1 h2 h3]
    have l1 := hlive x
    rw [h1] at l1
    have l2 := hdiag s1
    rw [h2] at l2
    have t1 : s1.time = x.time := by
      have := container_check_output_time env ["exec", "-t", name, "id"] x
      rw [h1] at this
      exact this
    have t2 : s2.time = s1.time := by
      have := diagStep_time env name s1
      rw [h2] at this
      exact this
    have hcount : countLiveness name (doSleep 5 s2).trace = countLiveness name s2.trace := by
      simp [doSleep, countLiveness, List.countP_append, isLiveness]
    have htime : (doSleep 5 s2).time = s2.time + 5 := rfl
    rw [hcount, htime] at ih
    dsimp only at l1 l2 ⊢
    omega
  | case4 x s1 h1 e s2 h2 =>
    rw [readyLoop_step_diagErr env name timeout start x s1 s2 e h1 h2]
    have l1 := hlive x
    rw [h1] at l1
    have l2 : countLiveness name ((diagStep env name s1).2.trace) = countLiveness name s1.trace :=
      hdiag s1
    rw [h2] at l2
    dsimp only at l1 l2 ⊢
    omega
  | case5 x e s1 hne h1 =>
    rw [readyLoop_step_err env name timeout start x s1 e h1 (fun hc => hne hc)]
    have l1 := hlive x
    rw [h1] at l1
    dsimp only at l1 ⊢
    omega

/-- Attempt bound for `check_container_ready`: at most `timeout / 5 + 2`
liveness attempts are ever issued, whatever the container does. -/
theorem check_container_ready_attempt_bound (env : Env) (name : String) (timeout : Nat) (s : St) :
    countLiveness name ((check_container_ready env name timeout s).2.trace)
      ≤ countLiveness name s.trace + (timeout / 5 + 2) := by
  have h := readyLoop_countLiveness_le env name timeout s.time s
  have e1 : s.time + timeout + 5 - s.time = timeout + 5 := by omega
  rw [e1] at h
  have e2 : (timeout + 5) / 5 = timeout / 5 + 1 := by omega
  rw [e2] at h
  simpa [check_container_ready] using h

/-! ## The orchestrated step sequence of `run_test` -/

/-- Run a list of steps in order, stopping at the first raised exception. -/
def runSteps (steps : List (St → Except PyExc Unit × St)) (s : St) : Except PyExc Unit × St :=
  match steps with
  | [] => (Except.ok (), s)
  | step :: rest =>
    match step s with
    | (Except.ok _, s1) => runSteps rest s1
    | (Except.error e, s1) => (Except.error e, s1)

/-- The steps of `run_test`, in source order: stop, run, readiness wait, the
two fixture copies, the logs read, the optional upgrade bootstrap, the
installer, the dependency install, the freeze, and the pytest suite.  The
upgrade step is present exactly when `upgrade_from` is non-empty. -/
def runTestSteps (env : Env) (image_name test_name bootstrap_pip_spec : String)
    (test_files : List String) (upgrade_from installer_args : String) :
    List (St → Except PyExc Unit × St) :=
  [stop_container env test_name,
   run_systemd_image env image_name test_name bootstrap_pip_spec,
   check_container_ready env test_name 60,
   copy_to_container env test_name (env.source_path ++ "/bootstrap/.") "/srv/src",
   copy_to_container env test_name (env.source_path ++ "/integration-tests/") "/srv/src",
   fun s => toUnit (container_check_output env ["logs", test_name] s)]
  ++ (if upgrade_from = "" then [] else
      [run_container_command env test_name
        ("curl -L https://tljh.jupyter.org/bootstrap.py | python3 - --version=" ++ upgrade_from)])
  ++ [run_container_command env test_name ("python3 /srv/src/bootstrap.py " ++ installer_args),
      run_container_command env test_name
        "/opt/tljh/hub/bin/python3 -m pip install -r /srv/src/integration-tests/requirements.txt",
      run_container_command env test_name "/opt/tljh/hub/bin/python3 -m pip freeze",
      run_container_command env test_name (pytestCommand test_files)]

theorem runSteps_nil (s : St) : runSteps [] s = (Except.ok (), s) := rfl

theorem seqE_okPair {α β : Type} (a : α) (s : St) (f : α → St → Except PyExc β × St) :
    seqE (Except.ok a, s) f = f a s := rfl

theorem runSteps_cons (step : St → Except PyExc Unit × St)
    (rest : List (St → Except PyExc Unit × St)) (s : St) :
    runSteps (step :: rest) s = seqE (step s) fun _ s1 => runSteps rest s1 := by
  rcases h : step s with ⟨r, s1⟩
  rw [runSteps, h]
  cases r <;> simp [seqE]

theorem seqE_terminal (x : Except PyExc Unit × St) :
    seqE x (fun _ s1 => ((Except.ok () : Except PyExc Unit), s1)) = x := by
  rcases x with ⟨r, s1⟩
  cases r <;> rfl

theorem runSteps_append (l1 l2 : List (St → Except PyExc Unit × St)) (s : St) :
    runSteps (l1 ++ l2) s = seqE (runSteps l1 s) fun _ s1 => runSteps l2 s1 := by
  induction l1 generalizing s with
  | nil => simp [runSteps, seqE]
  | cons step rest ih =>
    rw [List.cons_append, runSteps_cons, runSteps_cons]
    rcases step s with ⟨r, s1⟩
    cases r with
    | ok a => simp [seqE, ih]
    | error e => simp [seqE]

/-- `run_test` is exactly the in-order execution of its step list. -/
theorem run_test_eq (env : Env) (image_name test_name bootstrap_pip_spec : String)
    (test_files : List String) (upgrade_from installer_args : String) (s : St) :
    run_test env image_name test_name bootstrap_pip_spec test_files upgrade_from installer_args s
      = runSteps
          (runTestSteps env image_name test_name bootstrap_pip_spec test_files
            upgrade_from installer_args) s := by
  unfold run_test runTestSteps
  by_cases h : upgrade_from = ""
  · simp only [if_pos h]
    simp only [List.nil_append, List.cons_append, List.append_nil, runSteps_cons, runSteps_nil,
      seqE_terminal, seqE_okPair]
  · simp only [if_neg h]
    simp only [List.nil_append, List.cons_append, List.append_nil, runSteps_cons, runSteps_nil,
      seqE_terminal, seqE_okPair]

theorem runTestSteps_length (env : Env) (image_name test_name bootstrap_pip_spec : String)
    (test_files : List String) (upgrade_from installer_args : String) :
    (runTestSteps env image_name test_name bootstrap_pip_spec test_files
        upgrade_from installer_args).length
      = if upgrade_from = "" then 10 else 11 := by
  by_cases h : upgrade_from = "" <;> simp [runTestSteps, h]

/-! ## Concrete worlds used for scenario evaluations -/

/-- A host with docker on the search path where every issued command exits
nonzero (`CalledProcessError`): a container that never answers, or an
unreachable runtime daemon. -/
def neverReadyEnv : Env where
  whichAvail := fun r => r == "docker"
  runResult := fun _ _ => CmdOutcome.fail PyExc.calledProcessError
  source_path := "/repo"

/-- A host where every runtime binary exists and every command succeeds. -/
def allOkEnv : Env where
  whichAvail := fun _ => true
  runResult := fun _ _ => CmdOutcome.ok ""
  source_path := "/repo"

/-- A host with no container runtime binary on the search path. -/
def noRuntimeEnv : Env where
  whichAvail := fun _ => false
  runResult := fun _ _ => CmdOutcome.ok ""
  source_path := "/repo"

/-- A host where every command succeeds except any `logs` read, which exits
nonzero. -/
def logsFailEnv : Env where
  whichAvail := fun r => r == "docker"
  runResult := fun c _ =>
    match c with
    | [_, "logs", _] => CmdOutcome.fail PyExc.calledProcessError
    | _ => CmdOutcome.ok ""
  source_path := "/repo"

/-- The initial process state. -/
def st0 : St := { time := 0, trace := [] }

/-- When docker is on the search path, one `container_check_output` call
probes once and issues exactly the docker-prefixed command. -/
theorem cco_docker (env : Env) (args : Cmd) (s : St) (h : env.whichAvail "docker" = true) :
    container_check_output env args s
      = ((container_check_output env args s).1,
         { time := s.time,
           trace := s.trace ++ [Event.probe "docker", Event.exec ("docker" :: args)] }) := by
  rcases hc : container_check_output env args s with ⟨r, s2⟩
  have ht : s2.time = s.time := by
    have := container_check_output_time env args s
    rw [hc] at this
    exact this
  have htr : s2.trace = s.trace ++ [Event.probe "docker", Event.exec ("docker" :: args)] := by
    rcases cco_trace_cases env args s with ⟨_, h2⟩ | ⟨hd, _, _⟩ | ⟨hd, _, _⟩
    · rw [hc] at h2
      exact h2
    · rw [h] at hd
      cases hd
    · rw [h] at hd
      cases hd
  cases s2
  simp_all

/-! ## C1 -/

/-- C1: `run_test` is the in-order execution of the fixed step list stop,
run, readiness wait, fixture copies, logs read, optional upgrade, installer,
dependency install, freeze, pytest; the upgrade step is in the list exactly
when `upgrade_from` is non-empty (length 11 versus 10); and executing a step
list stops at the first step that raises, never reaching the steps after it
(`runSteps` over an append seeks the error in the first part first). -/
theorem c1_run_test_step_order (env : Env) (image_name test_name bootstrap_pip_spec : String)
    (test_files : List String) (upgrade_from installer_args : String) (s : St) :
    run_test env image_name test_name bootstrap_pip_spec test_files upgrade_from installer_args s
      = runSteps
          (runTestSteps env image_name test_name bootstrap_pip_spec test_files
            upgrade_from installer_args) s
    ∧ (runTestSteps env image_name test_name bootstrap_pip_spec test_files
          upgrade_from installer_args).length
        = (if upgrade_from = "" then 10 else 11)
    ∧ ∀ (l1 l2 : List (St → Except PyExc Unit × St)) (t : St),
        runSteps (l1 ++ l2) t = seqE (runSteps l1 t) fun _ t1 => runSteps l2 t1 :=
  ⟨run_test_eq env image_name test_name bootstrap_pip_spec test_files upgrade_from
      installer_args s,
   runTestSteps_length env image_name test_name bootstrap_pip_spec test_files upgrade_from
      installer_args,
   fun l1 l2 t => runSteps_append l1 l2 t⟩

/-! ## C9 -/

/-- C9: only `CalledProcessError` from the liveness command is caught by the
readiness loop; any other exception (for example the `RuntimeError` raised
when runtime resolution finds no binary) propagates out of
`check_container_ready` at once, with the state exactly as it was at the
failed attempt — no diagnostics, no sleep, no retry, and no
container-not-ready error. -/
theorem c9_nonCPE_propagates (env : Env) (name : String) (timeout : Nat) (s : St)
    (e : PyExc) (s1 : St)
    (h1 : container_check_output env ["exec", "-t", name, "id"] s = (Except.error e, s1))
    (hne : e ≠ PyExc.calledProcessError) :
    check_container_ready env name timeout s = (Except.error e, s1)
    ∧ ∀ start : Nat, readyLoop env name timeout start s = (Except.error e, s1) :=
  ⟨readyLoop_step_err env name timeout s.time s s1 e h1 hne,
   fun start => readyLoop_step_err env name timeout start s s1 e h1 hne⟩

/-- C9 witness: on a host with no runtime binary the first poll raises the
no-runtime `RuntimeError`, which propagates untouched. -/
theorem c9_nonCPE_propagates_witness :
    check_container_ready noRuntimeEnv "t1" 60 st0
      = (Except.error (PyExc.runtimeError "No container runtime found, tried: docker podman"),
         { time := 0, trace := [Event.probe "docker", Event.probe "podman"] }) :=
  (c9_nonCPE_propagates noRuntimeEnv "t1" 60 st0
    (PyExc.runtimeError "No container runtime found, tried: docker podman")
    { time := 0, trace := [Event.probe "docker", Event.probe "podman"] }
    rfl (by decide)).1

/-! ## C3 -/

/-- C3: stopping a container that does not exist (every runtime's inspect of
it exits nonzero) succeeds without error, leaves the clock untouched, and the
only runtime command issued is the inspect — in particular no `rm` is run. -/
theorem c3_stop_missing_container_ok (env : Env) (name : String) (s : St)
    (h1 : env.whichAvail "docker" = true ∨ env.whichAvail "podman" = true)
    (h2 : ∀ rt : String, env.runResult [rt, "inspect", name] s.time
        = CmdOutcome.fail PyExc.calledProcessError) :
    (stop_container env name s).1 = Except.ok ()
    ∧ (stop_container env name s).2.time = s.time
    ∧ ∃ Δ : List Event, (stop_container env name s).2.trace = s.trace ++ Δ
        ∧ ∀ c : Cmd, Event.exec c ∈ Δ →
            c = ["docker", "inspect", name] ∨ c = ["podman", "inspect", name] := by
  unfold stop_container container_check_output container_runtime execCmd recordEvent seqE
  by_cases hd : env.whichAvail "docker"
  · simp only [hd, if_true]
    rw [h2 "docker"]
    refine ⟨rfl, rfl, [Event.probe "docker", Event.exec ["docker", "inspect", name]], ?_, ?_⟩
    · simp
    intro c hc
    simp only [List.mem_cons, List.not_mem_nil, or_false] at hc
    rcases hc with hc | hc
    · cases hc
    · exact Or.inl (by injection hc)
  · rcases h1 with h1 | h1
    · rw [h1] at hd
      cases hd rfl
    · simp only [hd, h1, if_true, if_false, Bool.false_eq_true]
      rw [h2 "podman"]
      refine ⟨rfl, rfl,
        [Event.probe "docker", Event.probe "podman", Event.exec ["podman", "inspect", name]],
        ?_, ?_⟩
      · simp
      intro c hc
      simp only [List.mem_cons, List.not_mem_nil, or_false] at hc
      rcases hc with hc | hc | hc
      · cases hc
      · cases hc
      · exact Or.inr (by injection hc)

/-- C3 witness: on the all-failing docker host, stopping container `"a"`
succeeds and only the inspect is issued. -/
theorem c3_stop_missing_container_ok_witness :
    (stop_container neverReadyEnv "a" st0).1 = Except.ok ()
    ∧ (stop_container neverReadyEnv "a" st0).2.time = st0.time
    ∧ ∃ Δ : List Event, (stop_container neverReadyEnv "a" st0).2.trace = st0.trace ++ Δ
        ∧ ∀ c : Cmd, Event.exec c ∈ Δ →
            c = ["docker", "inspect", "a"] ∨ c = ["podman", "inspect", "a"] :=
  c3_stop_missing_container_ok neverReadyEnv "a" st0 (Or.inl rfl) (fun rt => rfl)

/-! ## C2 -/

/-- Concrete run of the never-answering scenario with timeout 10: liveness
attempts at times 0, 5, 10 and 15; after the fourth attempt the elapsed 15
exceeds 10 and the loop raises. -/
theorem neverReady_timeout10_eval :
    (check_container_ready neverReadyEnv "t1" 10 st0).1
        = Except.error (PyExc.runtimeError "Container t1 hasn't started")
    ∧ countLiveness "t1" ((check_container_ready neverReadyEnv "t1" 10 st0).2.trace) = 4 := by
  constructor <;>
    simp [check_container_ready, readyLoop, neverReadyEnv, st0, container_check_output,
      container_runtime, execCmd, recordEvent, seqE, diagStep, tryDiagCmd, doSleep,
      countLiveness, isLiveness, List.countP_cons]

/-- C2 counterexample: with timeout 10 and the fixed 5-second interval the
never-ready probe makes 4 liveness attempts — not the claimed 2, and more
than the claimed ceiling of ceil(10/5)+1 = 3 — before raising the
container-not-ready RuntimeError. -/
theorem c2_attempt_count_counterexample :
    countLiveness "t1" ((check_container_ready neverReadyEnv "t1" 10 st0).2.trace) = 4
    ∧ ¬ countLiveness "t1" ((check_container_ready neverReadyEnv "t1" 10 st0).2.trace)
        ≤ 10 / 5 + 1
    ∧ (check_container_ready neverReadyEnv "t1" 10 st0).1
        = Except.error (PyExc.runtimeError "Container t1 hasn't started") := by
  obtain ⟨h1, h2⟩ := neverReady_timeout10_eval
  refine ⟨h2, ?_, h1⟩
  rw [h2]
  decide

/-- C2 (amended): the poll interval is hard-coded at 5 seconds; for every
environment, timeout and starting state the probe issues at most
floor(timeout/5)+2 liveness attempts, and in the never-answering scenario
with timeout 10 it makes exactly 4 attempts and then fails with the
container-not-ready RuntimeError. -/
theorem c2_attempt_bound_amended (env : Env) (name : String) (timeout : Nat) (s : St) :
    countLiveness name ((check_container_ready env name timeout s).2.trace)
      ≤ countLiveness name s.trace + (timeout / 5 + 2)
    ∧ countLiveness "t1" ((check_container_ready neverReadyEnv "t1" 10 st0).2.trace) = 4
    ∧ (check_container_ready neverReadyEnv "t1" 10 st0).1
        = Except.error (PyExc.runtimeError "Container t1 hasn't started") :=
  ⟨check_container_ready_attempt_bound env name timeout s, neverReady_timeout10_eval.2,
   neverReady_timeout10_eval.1⟩

/-! ## C4 -/

theorem cco_countProbes (env : Env) (args : Cmd) (s : St) :
    countProbes ((container_check_output env args s).2.trace)
      = countProbes s.trace + (if env.whichAvail "docker" then 1 else 2) := by
  rcases cco_trace_cases env args s with ⟨hd, h⟩ | ⟨hd, _, h⟩ | ⟨hd, _, h⟩ <;>
    rw [h] <;> simp [countProbes, List.countP_append, List.countP_cons, isProbe, hd]

/-- C4 counterexample: two successive container commands on the same
docker-equipped host leave two probe events in the trace — the second
operation re-probes the search path instead of reusing the first
resolution.  Under the claimed caching, the probe count after any number of
operations would be at most 1. -/
theorem c4_no_caching_counterexample :
    countProbes ((container_check_output allOkEnv ["logs", "x"]
        ((container_check_output allOkEnv ["inspect", "x"] st0).2)).2.trace) = 2
    ∧ ¬ countProbes ((container_check_output allOkEnv ["logs", "x"]
        ((container_check_output allOkEnv ["inspect", "x"] st0).2)).2.trace) ≤ 1 := by
  constructor <;> decide

/-- C4 (amended): the runtime selection is never cached: every
`container_check_output` call re-probes the search path — one probe when
docker is present, two otherwise — and the resolution is deterministic,
depending only on the environment and never on accumulated state, so every
call selects the same runtime while the search path is unchanged. -/
theorem c4_reprobe_each_call :
    (∀ (env : Env) (args : Cmd) (s : St),
      countProbes ((container_check_output env args s).2.trace)
        = countProbes s.trace + (if env.whichAvail "docker" then 1 else 2))
    ∧ ∀ (env : Env) (s t : St), (container_runtime env s).1 = (container_runtime env t).1 := by
  refine ⟨cco_countProbes, ?_⟩
  intro env s t
  unfold container_runtime
  by_cases hd : env.whichAvail "docker"
  · simp [hd]
  · by_cases hp : env.whichAvail "podman" <;> simp [hd, hp]

/-! ## C5 -/

/-- C5 counterexample: on a host whose runtime daemon is unreachable — every
command, the inspect included, exits nonzero — `stop_container` reports
success rather than an error: the code treats every `CalledProcessError`
from the inspect as "no such container", whatever its cause. -/
theorem c5_unreachable_runtime_counterexample :
    (stop_container neverReadyEnv "x" st0).1 = Except.ok () := rfl

/-- C5 (amended): `stop_container` cannot tell why the inspect exited
nonzero: every `CalledProcessError` from it — missing container and
unreachable daemon alike — yields success.  It fails only when the inspect
raises something other than a `CalledProcessError` (for example the
no-runtime `RuntimeError`), which propagates unchanged, or when the inspect
succeeds and the outcome is that of the force-remove. -/
theorem c5_stop_error_policy (env : Env) (name : String) (s : St) :
    (∀ s1 : St, container_check_output env ["inspect", name] s
          = (Except.error PyExc.calledProcessError, s1) →
        stop_container env name s = (Except.ok (), s1))
    ∧ (∀ (e : PyExc) (s1 : St), container_check_output env ["inspect", name] s
          = (Except.error e, s1) → e ≠ PyExc.calledProcessError →
        stop_container env name s = (Except.error e, s1))
    ∧ (∀ (out : String) (s1 : St), container_check_output env ["inspect", name] s
          = (Except.ok out, s1) →
        stop_container env name s = toUnit (container_check_output env ["rm", "-f", name] s1)) := by
  refine ⟨?_, ?_, ?_⟩
  · intro s1 h
    unfold stop_container
    rw [h]
  · intro e s1 h hne
    unfold stop_container
    rw [h]
    cases e with
    | calledProcessError => cases hne rfl
    | runtimeError m => rfl
    | otherExc m => rfl
  · intro out s1 h
    unfold stop_container
    rw [h]

/-- C5 witness: the swallow-any-CalledProcessError branch on the all-failing
docker host. -/
theorem c5_stop_error_policy_witness :
    stop_container neverReadyEnv "y" st0
      = (Except.ok (), St.mk 0 [Event.probe "docker", Event.exec ["docker", "inspect", "y"]]) :=
  (c5_stop_error_policy neverReadyEnv "y" st0).1
    (St.mk 0 [Event.probe "docker", Event.exec ["docker", "inspect", "y"]])
    rfl

/-! ## C6 -/

/-- Is this event an in-container shell execution (`exec ... /bin/bash -c`)? -/
def isBashCmd (e : Event) : Bool :=
  match e with
  | Event.exec c => c.contains "/bin/bash"
  | _ => false

theorem seqE_fst_ok {α β : Type} (x : Except PyExc α × St) (f : α → St → Except PyExc β × St)
    (b : β) (h : (seqE x f).1 = Except.ok b) :
    ∃ (a : α) (s1 : St), x = (Except.ok a, s1) ∧ (f a s1).1 = Except.ok b := by
  rcases x with ⟨r, s1⟩
  cases r with
  | ok a => exact ⟨a, s1, rfl, h⟩
  | error e => exact absurd h (by simp [seqE])

theorem toUnit_fst_ok {α : Type} (x : Except PyExc α × St)
    (h : (toUnit x).1 = Except.ok ()) : ∃ a : α, x.1 = Except.ok a := by
  rcases x with ⟨r, s1⟩
  cases r with
  | ok a => exact ⟨a, rfl⟩
  | error e => exact Except.noConfusion h

/-- Full evaluation of `container_check_output` as a function of the world. -/
theorem cco_eq (env : Env) (args : Cmd) (s : St) :
    container_check_output env args s
      = if env.whichAvail "docker" then
          ((match env.runResult ("docker" :: args) s.time with
            | CmdOutcome.ok out => Except.ok out
            | CmdOutcome.fail e => Except.error e),
           St.mk s.time (s.trace ++ [Event.probe "docker", Event.exec ("docker" :: args)]))
        else if env.whichAvail "podman" then
          ((match env.runResult ("podman" :: args) s.time with
            | CmdOutcome.ok out => Except.ok out
            | CmdOutcome.fail e => Except.error e),
           St.mk s.time (s.trace ++ [Event.probe "docker", Event.probe "podman",
             Event.exec ("podman" :: args)]))
        else
          (Except.error (PyExc.runtimeError "No container runtime found, tried: docker podman"),
           St.mk s.time (s.trace ++ [Event.probe "docker", Event.probe "podman"])) := by
  unfold container_check_output container_runtime execCmd recordEvent seqE
  by_cases hd : env.whichAvail "docker"
  · simp only [hd, if_true]
    rcases hr : env.runResult ("docker" :: args) s.time with o | e <;> simp [hr]
  · by_cases hp : env.whichAvail "podman"
    · simp only [hd, hp, if_true, if_false, Bool.false_eq_true]
      rcases hr : env.runResult ("podman" :: args) s.time with o | e <;> simp [hr]
    · simp [hd, hp]

theorem cco_fst_ok (env : Env) (args : Cmd) (s : St) (out : String)
    (h : (container_check_output env args s).1 = Except.ok out) :
    ∃ rt : String, (rt = "docker" ∨ rt = "podman")
      ∧ env.runResult (rt :: args) s.time = CmdOutcome.ok out := by
  rw [cco_eq] at h
  by_cases hd : env.whichAvail "docker"
  · refine ⟨"docker", Or.inl rfl, ?_⟩
    simp only [hd, if_true] at h
    rcases hr : env.runResult ("docker" :: args) s.time with o | e <;> rw [hr] at h <;> simp_all
  · by_cases hp : env.whichAvail "podman"
    · refine ⟨"podman", Or.inr rfl, ?_⟩
      simp only [hd, hp, if_true, if_false, Bool.false_eq_true] at h
      rcases hr : env.runResult ("podman" :: args) s.time with o | e <;> rw [hr] at h <;> simp_all
    · simp [hd, hp] at h

/-- Immediate readiness: when the very first liveness attempt succeeds, the
probe returns at once. -/
theorem check_ready_instant (env : Env) (name : String) (timeout : Nat) (s : St)
    (a : String) (s1 : St)
    (h : container_check_output env ["exec", "-t", name, "id"] s = (Except.ok a, s1)) :
    check_container_ready env name timeout s = (Except.ok (), s1) :=
  readyLoop_step_ok env name timeout s.time s a s1 h

theorem logsFailEnv_which (r : String) : logsFailEnv.whichAvail r = (r == "docker") := rfl

theorem logsFailEnv_src : logsFailEnv.source_path = "/repo" := rfl

theorem logsFailEnv_run (c : Cmd) (t : Nat) :
    logsFailEnv.runResult c t
      = (match c with
         | [_, "logs", _] => CmdOutcome.fail PyExc.calledProcessError
         | _ => CmdOutcome.ok "") := rfl

set_option maxRecDepth 2048 in
set_option maxHeartbeats 800000 in
/-- C6 counterexample: in a world where everything succeeds except the `logs`
read, `run_test` aborts with the logs read's `CalledProcessError` — the
step-5 log emission is fatal, not best-effort — and no in-container shell
step (upgrade, installer, dependency install, freeze, pytest) is ever
issued. -/
theorem c6_logs_failure_fatal_counterexample :
    (run_test logsFailEnv "img" "t1" "" ["a.py"] "" "" st0).1
      = Except.error PyExc.calledProcessError
    ∧ ((run_test logsFailEnv "img" "t1" "" ["a.py"] "" "" st0).2.trace).countP isBashCmd = 0 := by
  have hr : check_container_ready logsFailEnv "t1" 60
      (St.mk 0 [Event.probe "docker", Event.exec ["docker", "inspect", "t1"],
        Event.probe "docker", Event.exec ["docker", "rm", "-f", "t1"], Event.probe "docker",
        Event.exec ["docker", "run", "--privileged", "--detach", "--name=t1", "--memory=900m",
          "img"]])
      = (Except.ok (),
         St.mk 0 [Event.probe "docker", Event.exec ["docker", "inspect", "t1"],
           Event.probe "docker", Event.exec ["docker", "rm", "-f", "t1"], Event.probe "docker",
           Event.exec ["docker", "run", "--privileged", "--detach", "--name=t1", "--memory=900m",
             "img"], Event.probe "docker", Event.exec ["docker", "exec", "-t", "t1", "id"]]) :=
    check_ready_instant logsFailEnv "t1" 60 _ "" _ rfl
  constructor <;>
    simp [run_test, stop_container, run_systemd_image, hr,
      copy_to_container, run_container_command, container_run, container_check_output,
      container_runtime, execCmd, recordEvent, seqE, toUnit, Except.map,
      logsFailEnv_which, logsFailEnv_run, logsFailEnv_src, st0, isBashCmd, List.countP_cons,
      pytestCommand]

/-- C6 (amended): the step-5 logs read of `run_test` is fatal, not
best-effort: in any world where the `logs` command for the test container
always exits nonzero, `run_test` never returns success — the raised
`CalledProcessError` aborts the remaining sequence.  (Only the diagnostic
reads inside the readiness probe are best-effort.) -/
theorem c6_logs_failure_aborts (env : Env) (image test pip : String) (files : List String)
    (upg inst : String) (s : St)
    (hlogs : ∀ (rt : String) (t : Nat),
      env.runResult (rt :: ["logs", test]) t = CmdOutcome.fail PyExc.calledProcessError) :
    (run_test env image test pip files upg inst s).1 ≠ Except.ok () := by
  intro hok
  unfold run_test at hok
  obtain ⟨_, s1, _, hok⟩ := seqE_fst_ok _ _ _ hok
  obtain ⟨_, s2, _, hok⟩ := seqE_fst_ok _ _ _ hok
  obtain ⟨_, s3, _, hok⟩ := seqE_fst_ok _ _ _ hok
  obtain ⟨_, s4, _, hok⟩ := seqE_fst_ok _ _ _ hok
  obtain ⟨_, s5, _, hok⟩ := seqE_fst_ok _ _ _ hok
  obtain ⟨u6, s6, hx, _⟩ := seqE_fst_ok _ _ _ hok
  have hfst : (toUnit (container_check_output env ["logs", test] s5)).1 = Except.ok () := by
    rw [hx]
  obtain ⟨out, hcc⟩ := toUnit_fst_ok _ hfst
  obtain ⟨rt, _, hres⟩ := cco_fst_ok env ["logs", test] s5 out hcc
  rw [hlogs rt s5.time] at hres
  cases hres

/-- C6 witness for the amended theorem: applied to the concrete
logs-always-fail world. -/
theorem c6_logs_failure_aborts_witness :
    (run_test logsFailEnv "img" "t1" "" ["a.py"] "" "" st0).1 ≠ Except.ok () :=
  c6_logs_failure_aborts logsFailEnv "img" "t1" "" ["a.py"] "" "" st0 (fun rt t => rfl)

/-! ## C7 -/

theorem cco_snd_docker (env : Env) (args : Cmd) (s : St) (h : env.whichAvail "docker" = true) :
    (container_check_output env args s).2
      = St.mk s.time (s.trace ++ [Event.probe "docker", Event.exec ("docker" :: args)]) :=
  congrArg Prod.snd (cco_docker env args s h)

/-- C7: `run_systemd_image` always issues a single run command carrying
`--privileged`, `--detach` and the fixed `--memory=900m` ceiling, and it
carries `-e TLJH_BOOTSTRAP_PIP_SPEC=<spec>` exactly when `bootstrap_pip_spec`
is non-empty, with the image name last. -/
theorem c7_run_image_flags (env : Env) (image name pip : String) (s : St)
    (h : env.whichAvail "docker" = true) :
    (run_systemd_image env image name pip s).2
      = St.mk s.time (s.trace ++ [Event.probe "docker",
          Event.exec ("docker" :: (["run", "--privileged", "--detach", "--name=" ++ name,
              "--memory=900m"]
            ++ (if pip = "" then [] else ["-e", "TLJH_BOOTSTRAP_PIP_SPEC=" ++ pip])
            ++ [image]))]) := by
  unfold run_systemd_image
  rw [toUnit_snd, cco_snd_docker env _ s h]
  by_cases hp : pip = "" <;> simp [hp, List.append_assoc]

/-- C7 witness: with a non-empty bootstrap pip spec the environment flag is
present, between the memory ceiling and the image name. -/
theorem c7_run_image_flags_witness :
    (run_systemd_image allOkEnv "tljh-systemd" "t1" "spec" st0).2
      = St.mk 0 [Event.probe "docker",
          Event.exec ["docker", "run", "--privileged", "--detach", "--name=t1", "--memory=900m",
            "-e", "TLJH_BOOTSTRAP_PIP_SPEC=spec", "tljh-systemd"]] := by
  have h := c7_run_image_flags allOkEnv "tljh-systemd" "t1" "spec" st0 rfl
  simpa [st0] using h

/-! ## C8 -/

/-- C8: `build_systemd_image` issues one build command: the tag, the context
path, then one `--build-arg=<ba>` flag per supplied build argument, in
exactly the order supplied, duplicates preserved (`List.map` over the
argument list). -/
theorem c8_build_args_order (env : Env) (image src : String) (build_args : List String) (s : St)
    (h : env.whichAvail "docker" = true) :
    (build_systemd_image env image src build_args s).2
      = St.mk s.time (s.trace ++ [Event.probe "docker",
          Event.exec ("docker" :: (["build", "-t=" ++ image, src]
            ++ build_args.map (fun ba => "--build-arg=" ++ ba)))]) := by
  unfold build_systemd_image
  rw [toUnit_snd, cco_snd_docker env _ s h]
  cases build_args <;> simp

/-- C8 witness: build arguments `A=1` and `B=2` appear as two separate flags,
`A=1` first. -/
theorem c8_build_args_order_witness :
    (build_systemd_image allOkEnv "tljh-systemd" "integration-tests" ["A=1", "B=2"] st0).2
      = St.mk 0 [Event.probe "docker",
          Event.exec ["docker", "build", "-t=tljh-systemd", "integration-tests",
            "--build-arg=A=1", "--build-arg=B=2"]] := by
  have h := c8_build_args_order allOkEnv "tljh-systemd" "integration-tests" ["A=1", "B=2"] st0 rfl
  simpa [st0] using h

/-! ## C10 -/

theorem isTeardown_exec_false (rt : String) (args : Cmd)
    (h1 : ¬ args.head? = some "rm") (h2 : ¬ args.head? = some "stop") :
    isTeardown (Event.exec (rt :: args)) = false := by
  simp [isTeardown, h1, h2]

theorem isBadTeardown_exec_false (name rt : String) (args : Cmd)
    (h1 : ¬ args.head? = some "rm") (h2 : ¬ args.head? = some "stop") :
    isBadTeardown name (Event.exec (rt :: args)) = false := by
  simp [isBadTeardown, isTeardown_exec_false rt args h1 h2]

/-- The polling loop issues only liveness, inspect and logs commands: it
never changes the count of any event kind those commands do not have. -/
theorem readyLoop_countP_eq (p : Event → Bool) (hpr : ∀ r, p (Event.probe r) = false)
    (hsl : ∀ n, p (Event.sleep n) = false)
    (env : Env) (name : String) (timeout start : Nat)
    (hl1 : p (Event.exec ["docker", "exec", "-t", name, "id"]) = false)
    (hl2 : p (Event.exec ["podman", "exec", "-t", name, "id"]) = false)
    (hi1 : p (Event.exec ["docker", "inspect", name]) = false)
    (hi2 : p (Event.exec ["podman", "inspect", name]) = false)
    (hg1 : p (Event.exec ["docker", "logs", name]) = false)
    (hg2 : p (Event.exec ["podman", "logs", name]) = false)
    (s : St) :
    ((readyLoop env name timeout start s).2.trace).countP p = s.trace.countP p := by
  induction s using readyLoop.induct env name timeout start with
  | case1 x a s1 h1 =>
    rw [readyLoop_step_ok env name timeout start x a s1 h1]
    have l1 := cco_countP_eq p hpr env ["exec", "-t", name, "id"] x hl1 hl2
    rw [h1] at l1
    exact l1
  | case2 x s1 h1 b s2 h2 h3 =>
    cases b
    rw [readyLoop_step_timeout env name timeout start x s1 s2 h1 h2 h3]
    have l1 := cco_countP_eq p hpr env ["exec", "-t", name, "id"] x hl1 hl2
    rw [h1] at l1
    have l2 := diagStep_countP_eq p hpr env name s1 hi1 hi2 hg1 hg2
    rw [h2] at l2
    dsimp only at l1 l2 ⊢
    omega
  | case3 x s1 h1 b s2 h2 h3 ih =>
    cases b
    rw [readyLoop_step_again env name timeout start x s1 s2 h1 h2 h3]
    have l1 := cco_countP_eq p hpr env ["exec", "-t", name, "id"] x hl1 hl2
    rw [h1] at l1
    have l2 := diagStep_countP_eq p hpr env name s1 hi1 hi2 hg1 hg2
    rw [h2] at l2
    have hds : ((doSleep 5 s2).trace).countP p = s2.trace.countP p := by
      simp [doSleep, List.countP_append, List.countP_cons, hsl]
    rw [ih, hds]
    dsimp only at l1 l2 ⊢
    omega
  | case4 x s1 h1 e s2 h2 =>
    rw [readyLoop_step_diagErr env name timeout start x s1 s2 e h1 h2]
    have l1 := cco_countP_eq p hpr env ["exec", "-t", name, "id"] x hl1 hl2
    rw [h1] at l1
    have l2 := diagStep_countP_eq p hpr env name s1 hi1 hi2 hg1 hg2
    rw [h2] at l2
    dsimp only at l1 l2 ⊢
    omega
  | case5 x e s1 hne h1 =>
    rw [readyLoop_step_err env name timeout start x s1 e h1 (fun hc => hne hc)]
    have l1 := cco_countP_eq p hpr env ["exec", "-t", name, "id"] x hl1 hl2
    rw [h1] at l1
    dsimp only at l1 ⊢
    omega

theorem runSteps_countP_eq (p : Event → Bool) (steps : List (St → Except PyExc Unit × St))
    (h : ∀ f ∈ steps, ∀ x : St, (((f x).2).trace).countP p = x.trace.countP p) (s : St) :
    ((runSteps steps s).2.trace).countP p = s.trace.countP p := by
  induction steps generalizing s with
  | nil => rfl
  | cons step rest ih =>
    rw [runSteps_cons]
    rcases hs : step s with ⟨r, s1⟩
    have h1 : s1.trace.countP p = s.trace.countP p := by
      have := h step (List.mem_cons_self step rest) s
      rw [hs] at this
      exact this
    cases r with
    | ok a =>
      simp only [seqE]
      rw [ih (fun f hf x => h f (List.mem_cons_of_mem step hf) x) s1, h1]
    | error e => simpa [seqE] using h1

/-- Every step of `run_test` after the initial stop preserves the count of
events `p` counts, provided `p` never counts probes, sleeps, or runtime
commands whose subcommand is neither `rm` nor `stop`. -/
theorem runTestSteps_tail_preserves (p : Event → Bool)
    (hpr : ∀ r, p (Event.probe r) = false) (hsl : ∀ n, p (Event.sleep n) = false)
    (hexec : ∀ (rt : String) (args : Cmd), ¬ args.head? = some "rm" →
      ¬ args.head? = some "stop" → p (Event.exec (rt :: args)) = false)
    (env : Env) (image_name test_name bootstrap_pip_spec : String) (test_files : List String)
    (upgrade_from installer_args : String) :
    ∀ f ∈ (runTestSteps env image_name test_name bootstrap_pip_spec test_files upgrade_from
        installer_args).tail, ∀ x : St, (((f x).2).trace).countP p = x.trace.countP p := by
  have hcco : ∀ (args : Cmd) (y : St), ¬ args.head? = some "rm" → ¬ args.head? = some "stop" →
      ((container_check_output env args y).2.trace).countP p = y.trace.countP p :=
    fun args y h1 h2 =>
      cco_countP_eq p hpr env args y (hexec "docker" args h1 h2) (hexec "podman" args h1 h2)
  have hrcc : ∀ (nm c : String) (y : St),
      ((run_container_command env nm c y).2.trace).countP p = y.trace.countP p := by
    intro nm c y
    unfold run_container_command
    rw [toUnit_snd, container_run_snd]
    exact hcco _ y (by simp) (by simp)
  have hrsi : ∀ (y : St),
      ((run_systemd_image env image_name test_name bootstrap_pip_spec y).2.trace).countP p
        = y.trace.countP p := by
    intro y
    unfold run_systemd_image
    rw [toUnit_snd]
    refine hcco _ y ?_ ?_ <;> by_cases hp : bootstrap_pip_spec = "" <;> simp [hp]
  have hcopy : ∀ (src dest : String) (y : St),
      ((copy_to_container env test_name src dest y).2.trace).countP p = y.trace.countP p := by
    intro src dest y
    unfold copy_to_container
    rw [toUnit_snd]
    exact hcco _ y (by simp) (by simp)
  have hready : ∀ (y : St),
      ((check_container_ready env test_name 60 y).2.trace).countP p = y.trace.countP p := by
    intro y
    unfold check_container_ready
    exact readyLoop_countP_eq p hpr hsl env test_name 60 y.time
      (hexec "docker" _ (by simp) (by simp)) (hexec "podman" _ (by simp) (by simp))
      (hexec "docker" _ (by simp) (by simp)) (hexec "podman" _ (by simp) (by simp))
      (hexec "docker" _ (by simp) (by simp)) (hexec "podman" _ (by simp) (by simp)) y
  intro f hf x
  by_cases hu : upgrade_from = ""
  · simp only [runTestSteps, hu, if_true, List.nil_append, List.cons_append, List.append_nil,
      List.tail_cons, List.mem_cons, List.mem_append, List.mem_singleton,
      List.not_mem_nil, or_false] at hf
    rcases hf with rfl | rfl | rfl | rfl | rfl | rfl | rfl | rfl | rfl
    · exact hrsi x
    · exact hready x
    · exact hcopy _ _ x
    · exact hcopy _ _ x
    · rw [toUnit_snd]
      exact hcco _ x (by simp) (by simp)
    · exact hrcc _ _ x
    · exact hrcc _ _ x
    · exact hrcc _ _ x
    · exact hrcc _ _ x
  · simp only [runTestSteps, hu, if_false, List.nil_append, List.cons_append, List.append_nil,
      List.tail_cons, List.mem_cons, List.mem_append, List.mem_singleton,
      List.not_mem_nil, or_false] at hf
    rcases hf with rfl | rfl | rfl | rfl | rfl | rfl | rfl | rfl | rfl | rfl
    · exact hrsi x
    · exact hready x
    · exact hcopy _ _ x
    · exact hcopy _ _ x
    · rw [toUnit_snd]
      exact hcco _ x (by simp) (by simp)
    · exact hrcc _ _ x
    · exact hrcc _ _ x
    · exact hrcc _ _ x
    · exact hrcc _ _ x
    · exact hrcc _ _ x

theorem stop_container_teardown_le (env : Env) (name : String) (s : St) :
    ((stop_container env name s).2.trace).countP isTeardown
      ≤ s.trace.countP isTeardown + 1 := by
  unfold stop_container
  rcases hi : container_check_output env ["inspect", name] s with ⟨r, s1⟩
  have h1 : s1.trace.countP isTeardown = s.trace.countP isTeardown := by
    have := cco_countP_eq isTeardown (fun r => rfl) env ["inspect", name] s rfl rfl
    rw [hi] at this
    exact this
  cases r with
  | ok a =>
    rw [toUnit_snd]
    have h2 := cco_countP_le isTeardown (fun r => rfl) env ["rm", "-f", name] s1
    omega
  | error e => cases e <;> dsimp only <;> omega

theorem stop_container_badTeardown_eq (env : Env) (name : String) (s : St) :
    ((stop_container env name s).2.trace).countP (isBadTeardown name)
      = s.trace.countP (isBadTeardown name) := by
  unfold stop_container
  rcases hi : container_check_output env ["inspect", name] s with ⟨r, s1⟩
  have h1 : s1.trace.countP (isBadTeardown name) = s.trace.countP (isBadTeardown name) := by
    have := cco_countP_eq (isBadTeardown name) (fun r => rfl) env ["inspect", name] s rfl rfl
    rw [hi] at this
    exact this
  cases r with
  | ok a =>
    rw [toUnit_snd]
    have h2 := cco_countP_eq (isBadTeardown name) (fun r => rfl) env ["rm", "-f", name] s1
      (by simp [isBadTeardown, isTeardown]) (by simp [isBadTeardown, isTeardown])
    omega
  | error e => cases e <;> dsimp only <;> omega

/-- C10: `run_test` performs no teardown after its initial pre-cleanup: over
any complete or aborted run, the trace gains at most one teardown command
(`rm` or `stop` subcommand) — the force-remove that `stop_container` may
issue in step 1 — and gains no teardown command other than the force-remove
of the test container by one of the two known runtimes.  The container
started in step 2 is never stopped or removed by the harness. -/
theorem c10_no_teardown_after_precleanup (env : Env)
    (image_name test_name bootstrap_pip_spec : String) (test_files : List String)
    (upgrade_from installer_args : String) (s : St) :
    ((run_test env image_name test_name bootstrap_pip_spec test_files upgrade_from
        installer_args s).2.trace).countP isTeardown
      ≤ s.trace.countP isTeardown + 1
    ∧ ((run_test env image_name test_name bootstrap_pip_spec test_files upgrade_from
        installer_args s).2.trace).countP (isBadTeardown test_name)
      = s.trace.countP (isBadTeardown test_name) := by
  have htail1 := runTestSteps_tail_preserves isTeardown (fun r => rfl) (fun n => rfl)
    isTeardown_exec_false env image_name test_name bootstrap_pip_spec test_files
    upgrade_from installer_args
  have htail2 := runTestSteps_tail_preserves (isBadTeardown test_name) (fun r => rfl)
    (fun n => rfl) (isBadTeardown_exec_false test_name) env image_name test_name
    bootstrap_pip_spec test_files upgrade_from installer_args
  have hsplit : runTestSteps env image_name test_name bootstrap_pip_spec test_files
      upgrade_from installer_args
      = stop_container env test_name
        :: (runTestSteps env image_name test_name bootstrap_pip_spec test_files
            upgrade_from installer_args).tail := rfl
  rw [run_test_eq, hsplit, runSteps_cons]
  rcases hs1 : stop_container env test_name s with ⟨r, s1⟩
  have ha : s1.trace.countP isTeardown ≤ s.trace.countP isTeardown + 1 := by
    have := stop_container_teardown_le env test_name s
    rw [hs1] at this
    exact this
  have hb : s1.trace.countP (isBadTeardown test_name)
      = s.trace.countP (isBadTeardown test_name) := by
    have := stop_container_badTeardown_eq env test_name s
    rw [hs1] at this
    exact this
  cases r with
  | ok a =>
    simp only [seqE]
    constructor
    · rw [runSteps_countP_eq isTeardown _ htail1 s1]
      exact ha
    · rw [runSteps_countP_eq (isBadTeardown test_name) _ htail2 s1]
      exact hb
  | error e => exact ⟨ha, hb⟩

/-- C10 witness: a concrete successful-looking run on the logs-failing host
starting from the empty trace: one teardown command in total, none of a bad
shape. -/
theorem c10_no_teardown_after_precleanup_witness :
    ((run_test logsFailEnv "img" "t1" "" ["a.py"] "" "" st0).2.trace).countP isTeardown
      ≤ st0.trace.countP isTeardown + 1
    ∧ ((run_test logsFailEnv "img" "t1" "" ["a.py"] "" "" st0).2.trace).countP
        (isBadTeardown "t1")
      = st0.trace.countP (isBadTeardown "t1") :=
  c10_no_teardown_after_precleanup logsFailEnv "img" "t1" "" ["a.py"] "" "" st0

end IntegrationTest
